import Mathlib

/-!
Verification of the voting-app repository (three near-duplicate Express/SQLite
variants) against its natural-language specification.

The repository holds two behavioural variants of the same application:
  * `AppJs`  — `src/app.js`
  * `AppPt`  — `src/unnamed/part_000` and `src/unnamed/part_001` (identical in
    every part modelled here: schema, statements, helpers, and the
    `/api/vote`, `/api/artists` and leaderboard routes).

The SQLite store is embedded as explicit lists of rows; the UNIQUE
constraints of the schema are embedded as pre-insert checks that make the
insert fail (`Except.error`), exactly as the database surfaces them to the
caller as a thrown constraint violation.  Timestamps are milliseconds
(`Nat`), as produced by `Date.now()`.  JavaScript request numbers are
modelled as `Option ℚ`: `none` stands for a value that is not a number
(`typeof x !== 'number'` in app.js, `Number(x)` being `NaN` in the other
variant), `some q` for the numeric value `q`.
-/

namespace VotingApp

/-- Models the JavaScript `a || b` idiom on strings, where `undefined` and
the empty string are falsy. -/
def jsOr (v : Option String) (d : String) : String :=
  match v with
  | some s => if s = "" then d else s
  | none => d

/-- Models `s.split(',')[0]`: the prefix of `s` before the first comma
(the whole of `s` when it has no comma). -/
def firstComma (s : String) : String :=
  String.mk (s.data.takeWhile (fun c => !(c = ',')))

/-- Models `s.trim()`: strips whitespace from both ends. -/
def trimStr (s : String) : String :=
  String.mk (((s.data.dropWhile Char.isWhitespace).reverse.dropWhile
    Char.isWhitespace).reverse)

/-- Models `s.toLowerCase()` (ASCII case folding, the range the slugs use). -/
def toLowerStr (s : String) : String :=
  String.mk (s.data.map Char.toLower)

/-- Characters the slug regular expression `[^a-z0-9]+` keeps. -/
def isSlugChar (c : Char) : Bool :=
  ('a' ≤ c && c ≤ 'z') || ('0' ≤ c && c ≤ '9')

/-- Helper for `dashNonSlugRuns`; the flag records whether the previous
character was part of a non-slug run already replaced by a dash. -/
def dashRunsAux : Bool → List Char → List Char
  | _, [] => []
  | inRun, c :: cs =>
    if isSlugChar c then c :: dashRunsAux false cs
    else if inRun then dashRunsAux true cs
    else '-' :: dashRunsAux true cs

/-- Models `.replace(/[^a-z0-9]+/g, '-')`: every maximal run of characters
outside `[a-z0-9]` becomes a single dash. -/
def dashNonSlugRuns (l : List Char) : List Char :=
  dashRunsAux false l

/-- Helper for `collapseDashes`; the flag records whether the previous kept
character was a dash. -/
def collapseAux : Bool → List Char → List Char
  | _, [] => []
  | inDash, c :: cs =>
    if c = '-' then
      (if inDash then collapseAux true cs else '-' :: collapseAux true cs)
    else c :: collapseAux false cs

/-- Models the global replace whose pattern is `-+` and replacement `-`:
every maximal run of dashes becomes a single dash. -/
def collapseDashes (l : List Char) : List Char :=
  collapseAux false l

/-- Models `name.toLowerCase().replace(/[^a-z0-9]+/g, '-')`. -/
def slugify (name : String) : String :=
  String.mk (dashNonSlugRuns (toLowerStr name).data)

/-- Models the full slug expression used by every variant: the slugified
name, a dash, and the `nanoid()` suffix, with dash runs collapsed by the
final replace (pattern `-+`).  `suffix` stands for the value the
`nanoid()` call returned. -/
def makeSlug (name suffix : String) : String :=
  String.mk (collapseDashes ((slugify name).data ++ '-' :: suffix.data))

/-- Models SQLite `ROUND(x, 2)`: rounding to two decimal places.  SQLite
rounds halves away from zero; the values rounded by the application are
averages of scores in `[0, 10]`, where that agrees with `round`
(round half up). -/
def round2 (q : ℚ) : ℚ :=
  ((round (q * 100) : ℤ) : ℚ) / 100

/-- Models `Number.isInteger` on a request number (`none` is `NaN` or a
missing field, never an integer). -/
def isIntNum : Option ℚ → Bool
  | none => false
  | some q => q.den == 1

end VotingApp

namespace VotingApp.AppPt

/-- Row of the `artists` table of part_000/part_001
(`id INTEGER PRIMARY KEY AUTOINCREMENT, name TEXT NOT NULL, slug TEXT NOT NULL UNIQUE`). -/
structure Artist where
  id : Int
  name : String
  slug : String
deriving Repr, DecidableEq

/-- Row of the `votes` table of part_000/part_001
(`id, artist_id, score, ip_hash, created_at, UNIQUE (artist_id, ip_hash)`). -/
structure Vote where
  id : Int
  artist_id : Int
  score : Int
  ip_hash : String
  created_at : Nat
deriving Repr, DecidableEq

/-- The SQLite database of part_000/part_001: both tables plus the next
AUTOINCREMENT ids. -/
structure Store where
  artists : List Artist
  votes : List Vote
  nextArtistId : Int
  nextVoteId : Int
deriving Repr, DecidableEq

/-- A freshly created database (both tables empty, AUTOINCREMENT at 1). -/
def emptyStore : Store :=
  { artists := [], votes := [], nextArtistId := 1, nextVoteId := 1 }

/-- Models `getArtistById`: `SELECT * FROM artists WHERE id = ?`. -/
def getArtistById (s : Store) (aid : Int) : Option Artist :=
  s.artists.find? (fun a => a.id == aid)

/-- Models the `slug TEXT NOT NULL UNIQUE` constraint check the insert hits. -/
def slugTaken (s : Store) (slug : String) : Bool :=
  s.artists.any (fun a => a.slug == slug)

/-- Models `insertArtist`: `INSERT INTO artists (name, slug) VALUES (?, ?)`;
the insert throws (here: `Except.error`) when the UNIQUE constraint on
`slug` is violated. -/
def insertArtist (s : Store) (name slug : String) : Except Unit (Artist × Store) :=
  if slugTaken s slug then .error ()
  else
    let a : Artist := { id := s.nextArtistId, name := name, slug := slug }
    .ok (a, { s with artists := s.artists ++ [a], nextArtistId := s.nextArtistId + 1 })

/-- Tests whether a row with the given `(artist_id, ip_hash)` pair exists —
the condition under which `UNIQUE (artist_id, ip_hash)` makes an insert
fail. -/
def votePairExists (votes : List Vote) (aid : Int) (hash : String) : Bool :=
  votes.any (fun v => v.artist_id == aid && v.ip_hash == hash)

/-- Models `insertVote`: `INSERT INTO votes (artist_id, score, ip_hash)
VALUES (...)`; the insert throws when `UNIQUE (artist_id, ip_hash)` is
violated. -/
def insertVote (s : Store) (aid sc : Int) (hash : String) (now : Nat) :
    Except Unit Store :=
  if votePairExists s.votes aid hash then .error ()
  else
    .ok { s with
      votes := s.votes ++
        [{ id := s.nextVoteId, artist_id := aid, score := sc, ip_hash := hash,
           created_at := now }],
      nextVoteId := s.nextVoteId + 1 }

/-- Models `getLastVoteByIp`: `SELECT created_at FROM votes WHERE artist_id
= ? AND ip_hash = ? ORDER BY id DESC LIMIT 1` — the matching row with the
largest `id`. -/
def getLastVoteByIp (s : Store) (aid : Int) (hash : String) : Option Vote :=
  (s.votes.filter (fun v => v.artist_id == aid && v.ip_hash == hash)).foldl
    (fun acc v =>
      match acc with
      | none => some v
      | some w => if w.id ≤ v.id then some v else some w) none

/-- Outcomes of `POST /api/vote` in part_000/part_001, one per `return`. -/
inductive Outcome where
  /-- 200 `{ok: true}`. -/
  | accepted
  /-- 400 `'artist_id e score são obrigatórios'` (non-integer ids/scores). -/
  | invalidInput
  /-- 400 `'A nota deve ser um inteiro entre 0 e 10'`. -/
  | outOfRange
  /-- 404 `'Artista não encontrado'`. -/
  | artistNotFound
  /-- 409 `'Você já votou. Tente em N min.'`; `retry` is the `Math.ceil` value. -/
  | tooSoon (retry : Int)
  /-- 409 `'Você já votou neste artista.'` (insert failed on the UNIQUE pair). -/
  | alreadyVoted
deriving Repr, DecidableEq

/-- HTTP status attached to each outcome by the route. -/
def status : Outcome → Nat
  | .accepted => 200
  | .invalidInput => 400
  | .outOfRange => 400
  | .artistNotFound => 404
  | .tooSoon _ => 409
  | .alreadyVoted => 409

/-- Models the inner `try { insertVote.run(...) } catch { 409 }` of the
route: the constraint violation is caught and mapped to `alreadyVoted`. -/
def persistVote (s : Store) (aid sc : Int) (hash : String) (now : Nat) :
    Outcome × Store :=
  match insertVote s aid sc hash now with
  | .error _ => (.alreadyVoted, s)
  | .ok s' => (.accepted, s')

/-- Models `POST /api/vote` of part_000/part_001.  `W` is
`VOTE_WINDOW_MINUTES`, `now` the value of `Date.now()` in ms, `hash` the
resolved `ipHash(clientIp(req))`, and the last two arguments the request
body numbers. -/
def submitVote (W now : Nat) (hash : String) (artistIdNum scoreNum : Option ℚ)
    (s : Store) : Outcome × Store :=
  if !(isIntNum artistIdNum && isIntNum scoreNum) then (.invalidInput, s)
  else
    let aid : Int := (artistIdNum.getD 0).num
    let sc : Int := (scoreNum.getD 0).num
    if sc < 0 ∨ 10 < sc then (.outOfRange, s)
    else
      match getArtistById s aid with
      | none => (.artistNotFound, s)
      | some _ =>
        if 0 < W then
          match getLastVoteByIp s aid hash with
          | some last =>
            let minutes : ℚ := ((now : ℚ) - (last.created_at : ℚ)) / 60000
            if minutes < (W : ℚ) then
              (.tooSoon (Int.ceil ((W : ℚ) - minutes)), s)
            else persistVote s aid sc hash now
          | none => persistVote s aid sc hash now
        else persistVote s aid sc hash now

/-- Outcomes of `POST /api/artists` in part_000/part_001. -/
inductive CreateOutcome where
  /-- 200 with the created row. -/
  | ok (a : Artist)
  /-- 403 `'Acesso negado'`. -/
  | forbidden
  /-- 400 `'Nome obrigatório'`. -/
  | nameRequired
  /-- 400 `'Não foi possível criar artista'` (insert threw). -/
  | couldNotCreate
deriving Repr, DecidableEq

/-- HTTP status attached to each creation outcome. -/
def createStatus : CreateOutcome → Nat
  | .ok _ => 200
  | .forbidden => 403
  | .nameRequired => 400
  | .couldNotCreate => 400

/-- Models `isStaff`: `req.cookies.staff === 'ok'`. -/
def isStaff (staffCookie : Option String) : Bool :=
  staffCookie == some "ok"

/-- Models `POST /api/artists` of part_000/part_001: staff gate, trim,
empty-name check, one slug generation, one insert attempt (no retry). -/
def apiCreateArtist (staffCookie : Option String) (rawName suffix : String)
    (s : Store) : CreateOutcome × Store :=
  if !isStaff staffCookie then (.forbidden, s)
  else
    let name := trimStr rawName
    if name = "" then (.nameRequired, s)
    else
      match insertArtist s name (makeSlug name suffix) with
      | .error _ => (.couldNotCreate, s)
      | .ok (a, s') => (.ok a, s')

/-- Models `clientIp` of part_000/part_001:
`xff?.split(',')[0]?.trim() || req.ip || req.connection?.remoteAddress || '0.0.0.0'`. -/
def clientIp (xff reqIp remote : Option String) : String :=
  jsOr (xff.map (fun s => trimStr (firstComma s)))
    (jsOr reqIp (jsOr remote "0.0.0.0"))

/-- Models `ipHash` of part_000/part_001:
`crypto.createHash('sha256').update(ip + SALT).digest('hex')`; the pure
digest function is abstracted as `sha256hex`. -/
def ipHash (sha256hex : String → String) (salt ip : String) : String :=
  sha256hex (ip ++ salt)

/-- Votes of one artist: `LEFT JOIN votes v ON v.artist_id = a.id` restricted
to the group of `a`. -/
def votesFor (s : Store) (aid : Int) : List Vote :=
  s.votes.filter (fun v => v.artist_id == aid)

/-- The aggregate `COALESCE(SUM(v.score), 0)` for one artist. -/
def sumScores (s : Store) (aid : Int) : Int :=
  ((votesFor s aid).map (fun v => v.score)).sum

/-- Row produced by `leaderboardStmt` of part_000/part_001:
`SELECT a.id, a.name, COUNT(v.id) AS votes, COALESCE(SUM(v.score),0) AS
total_score, ROUND(AVG(v.score),2) AS avg_score`. -/
structure Row where
  id : Int
  name : String
  votes : Nat
  total_score : Int
  avg_score : Option ℚ
deriving Repr, DecidableEq

/-- The leaderboard row of one artist: `COUNT`, `SUM` with `COALESCE`, and
`ROUND(AVG(v.score), 2)`, which is `NULL` (`none`) when the group has no
votes. -/
def mkRow (s : Store) (a : Artist) : Row :=
  let n := (votesFor s a.id).length
  { id := a.id, name := a.name, votes := n, total_score := sumScores s a.id,
    avg_score :=
      if n = 0 then none
      else some (round2 ((sumScores s a.id : ℚ) / (n : ℚ))) }

/-- Sort key of `ORDER BY total_score DESC, votes DESC, a.name ASC`:
ascending lexicographic order on the negated scores and the name. -/
def rowKey (r : Row) : Lex (Int × Lex (Int × String)) :=
  toLex (-r.total_score, toLex (-(r.votes : Int), r.name))

/-- Comparison realising the ORDER BY clause of `leaderboardStmt`. -/
def rowLe (r t : Row) : Prop :=
  rowKey r ≤ rowKey t

instance : DecidableRel rowLe :=
  fun r t => inferInstanceAs (Decidable (rowKey r ≤ rowKey t))

instance : IsTotal Row rowLe :=
  ⟨fun r t => le_total (rowKey r) (rowKey t)⟩

instance : IsTrans Row rowLe :=
  ⟨fun _ _ _ h h2 => le_trans h h2⟩

/-- Models `leaderboardStmt.all()` of part_000/part_001: one row per artist
(the `LEFT JOIN` keeps vote-less artists), sorted by the ORDER BY clause. -/
def leaderboard (s : Store) : List Row :=
  List.insertionSort rowLe (s.artists.map (mkRow s))

/-- Rows selected by `getArtistById` appear at most once per `(artist_id,
ip_hash)` pair: the relation two distinct vote rows must satisfy under
`UNIQUE (artist_id, ip_hash)`. -/
def VoteKeyDistinct (v w : Vote) : Prop :=
  ¬(v.artist_id = w.artist_id ∧ v.ip_hash = w.ip_hash)

/-- The uniqueness invariant of the vote store. -/
def UniqVotes (s : Store) : Prop :=
  s.votes.Pairwise VoteKeyDistinct

/-- States of the part_000/part_001 store reachable from a fresh database
through the two write routes. -/
inductive Reachable : Store → Prop
  | init : Reachable emptyStore
  | create (staffCookie : Option String) (rawName suffix : String) {s : Store} :
      Reachable s → Reachable (apiCreateArtist staffCookie rawName suffix s).2
  | vote (W now : Nat) (hash : String) (an sn : Option ℚ) {s : Store} :
      Reachable s → Reachable (submitVote W now hash an sn s).2

end VotingApp.AppPt

namespace VotingApp.AppJs

/-- Row of the `artists` table of src/app.js (`id, name, slug UNIQUE,
created_at`); `created_at` is kept as a millisecond timestamp. -/
structure Artist where
  id : Int
  name : String
  slug : String
  created_at : Nat
deriving Repr, DecidableEq

/-- Row of the `votes` table of src/app.js (`id, artist_id, score CHECK
(score BETWEEN 0 AND 10), ip_hash, user_agent, cookie_guard, created_at`),
with `CREATE UNIQUE INDEX uniq_artist_ip ON votes(artist_id, ip_hash)`. -/
structure Vote where
  id : Int
  artist_id : Int
  score : Int
  ip_hash : String
  user_agent : String
  cookie_guard : String
  created_at : Nat
deriving Repr, DecidableEq

/-- The SQLite database of src/app.js. -/
structure Store where
  artists : List Artist
  votes : List Vote
  nextArtistId : Int
  nextVoteId : Int
deriving Repr, DecidableEq

/-- A freshly created database. -/
def emptyStore : Store :=
  { artists := [], votes := [], nextArtistId := 1, nextVoteId := 1 }

/-- Models `getArtistById.get(artist_id)` where `artist_id` is the raw
request number (app.js only checks `typeof === 'number'`, so it may be
non-integral; the lookup then simply finds nothing). -/
def getArtistByIdNum (s : Store) (aid : ℚ) : Option Artist :=
  s.artists.find? (fun a => decide ((a.id : ℚ) = aid))

/-- Models the `slug TEXT NOT NULL UNIQUE` constraint check. -/
def slugTaken (s : Store) (slug : String) : Bool :=
  s.artists.any (fun a => a.slug == slug)

/-- Models `insertArtist.run(name, slug)` with its UNIQUE slug constraint. -/
def insertArtist (s : Store) (name slug : String) (now : Nat) :
    Except Unit (Artist × Store) :=
  if slugTaken s slug then .error ()
  else
    let a : Artist :=
      { id := s.nextArtistId, name := name, slug := slug, created_at := now }
    .ok (a, { s with artists := s.artists ++ [a], nextArtistId := s.nextArtistId + 1 })

/-- Condition under which `uniq_artist_ip` makes a vote insert fail. -/
def votePairExists (votes : List Vote) (aid : Int) (hash : String) : Bool :=
  votes.any (fun v => v.artist_id == aid && v.ip_hash == hash)

/-- Models `insertVote.run(artist_id, score, hash, ua, guardToken)`: the
insert throws when the `CHECK(score BETWEEN 0 AND 10)` constraint or the
`uniq_artist_ip` UNIQUE index is violated. -/
def insertVote (s : Store) (aid sc : Int) (hash ua guard : String) (now : Nat) :
    Except Unit Store :=
  if sc < 0 ∨ 10 < sc then .error ()
  else if votePairExists s.votes aid hash then .error ()
  else
    .ok { s with
      votes := s.votes ++
        [{ id := s.nextVoteId, artist_id := aid, score := sc, ip_hash := hash,
           user_agent := ua, cookie_guard := guard, created_at := now }],
      nextVoteId := s.nextVoteId + 1 }

/-- Models `getVoteByArtistAndIp.get(artist_id, hash)`. -/
def getVoteByArtistAndIp (s : Store) (aid : Int) (hash : String) : Option Vote :=
  s.votes.find? (fun v => v.artist_id == aid && v.ip_hash == hash)

/-- Models `countVotesByCookie.get(artist_id, guardToken).n`:
`SELECT COUNT(1) FROM votes WHERE artist_id = ? AND cookie_guard = ?`. -/
def countVotesByCookie (s : Store) (aid : Int) (guard : String) : Nat :=
  (s.votes.filter (fun v => v.artist_id == aid && v.cookie_guard == guard)).length

/-- Models the windowed duplicate pre-check `SELECT 1 FROM votes WHERE
artist_id = ? AND ip_hash = ? AND created_at >= datetime('now', '-W
minutes') LIMIT 1`: a matching vote no older than `W` minutes exists. -/
def recentVoteExists (s : Store) (aid : Int) (hash : String) (W now : Nat) :
    Bool :=
  s.votes.any (fun v =>
    v.artist_id == aid && v.ip_hash == hash &&
      decide (now ≤ v.created_at + W * 60000))

/-- Outcomes of `POST /api/vote` in src/app.js, one per `return`. -/
inductive Outcome where
  /-- 200 `{ok: true}`. -/
  | accepted
  /-- 400 `'artist_id and score are required'` (a field is not a number). -/
  | invalidInput
  /-- 400 `'Score must be an integer 0–10'` (out of range or non-integer). -/
  | scoreInvalid
  /-- 404 `'Artist not found'`. -/
  | artistNotFound
  /-- 409 `'You have already voted recently for this artist.'` (windowed). -/
  | alreadyRecent
  /-- 409 `'You have already voted for this artist.'` (unlimited). -/
  | alreadyVoted
  /-- 409 `'You have already voted for this artist (cookie).'`. -/
  | alreadyCookie
  /-- 400 `'Vote not recorded'` (the insert threw and was caught). -/
  | notRecorded
deriving Repr, DecidableEq

/-- HTTP status attached to each outcome by the route. -/
def status : Outcome → Nat
  | .accepted => 200
  | .invalidInput => 400
  | .scoreInvalid => 400
  | .artistNotFound => 404
  | .alreadyRecent => 409
  | .alreadyVoted => 409
  | .alreadyCookie => 409
  | .notRecorded => 400

/-- Models the tail of the route shared by both dedup branches: the cookie
soft guard followed by `try { insertVote.run(...) } catch { 400 }`. -/
def persistVote (s : Store) (aid sc : Int) (hash ua guard : String) (now : Nat) :
    Outcome × Store :=
  if 0 < countVotesByCookie s aid guard then (.alreadyCookie, s)
  else
    match insertVote s aid sc hash ua guard now with
    | .error _ => (.notRecorded, s)
    | .ok s' => (.accepted, s')

/-- Models `POST /api/vote` of src/app.js.  `guard` is the `_voter` cookie
token the `cookieGuard` helper resolved, `ua` the user agent. -/
def submitVote (W now : Nat) (hash guard ua : String)
    (artistIdNum scoreNum : Option ℚ) (s : Store) : Outcome × Store :=
  match artistIdNum, scoreNum with
  | some aidq, some scq =>
    if scq < 0 ∨ 10 < scq ∨ ¬scq.den = 1 then (.scoreInvalid, s)
    else
      match getArtistByIdNum s aidq with
      | none => (.artistNotFound, s)
      | some artist =>
        if 0 < W then
          if recentVoteExists s artist.id hash W now then (.alreadyRecent, s)
          else persistVote s artist.id scq.num hash ua guard now
        else
          match getVoteByArtistAndIp s artist.id hash with
          | some _ => (.alreadyVoted, s)
          | none => persistVote s artist.id scq.num hash ua guard now
  | _, _ => (.invalidInput, s)

/-- Outcomes of `POST /api/artists` in src/app.js (note: the route performs
no staff check). -/
inductive CreateOutcome where
  /-- 200 with the created row. -/
  | ok (a : Artist)
  /-- 400 `'Name required'`. -/
  | nameRequired
  /-- 400 `'Could not create artist'` (insert threw). -/
  | couldNotCreate
deriving Repr, DecidableEq

/-- HTTP status attached to each creation outcome. -/
def createStatus : CreateOutcome → Nat
  | .ok _ => 200
  | .nameRequired => 400
  | .couldNotCreate => 400

/-- Models `POST /api/artists` of src/app.js.  The route reads no cookie:
the `staffCookie` argument of the request is ignored, unlike the HTML
route `POST /artists`, which starts with `if (!isStaff(req)) return 403`. -/
def apiCreateArtist (_staffCookie : Option String) (rawName suffix : String)
    (now : Nat) (s : Store) : CreateOutcome × Store :=
  let name := trimStr rawName
  if name = "" then (.nameRequired, s)
  else
    match insertArtist s name (makeSlug name suffix) now with
    | .error _ => (.couldNotCreate, s)
    | .ok (a, s') => (.ok a, s')

/-- Models `clientIp` of src/app.js:
`const xfwd = (req.headers[xff] || '').split(',')[0].trim(); return xfwd ||
req.socket.remoteAddress || '0.0.0.0';`. -/
def clientIp (xff remote : Option String) : String :=
  let xfwd := trimStr (firstComma (jsOr xff ""))
  jsOr (some xfwd) (jsOr remote "0.0.0.0")

/-- Models `ipHash` of src/app.js:
`crypto.createHmac('sha256', SALT).update(ip).digest('hex')`; the pure HMAC
digest is abstracted as `hmacSha256hex`. -/
def ipHash (hmacSha256hex : String → String → String) (salt ip : String) :
    String :=
  hmacSha256hex salt ip

/-- Votes of one artist under the `LEFT JOIN` of `leaderboardStmt`. -/
def votesFor (s : Store) (aid : Int) : List Vote :=
  s.votes.filter (fun v => v.artist_id == aid)

/-- Total of the scores of one artist's votes.  The src/app.js
`leaderboardStmt` computes no such column; this is the specification's
`total_score` measure (`SUM(score)` over the artist's votes), defined here
only to compare the query's actual order against it. -/
def specTotalScore (s : Store) (aid : Int) : Int :=
  ((votesFor s aid).map (fun v => v.score)).sum

/-- Row produced by `leaderboardStmt` of src/app.js: `SELECT a.id, a.name,
a.slug, COUNT(v.id) AS votes, ROUND(AVG(v.score), 2) AS avg_score`.  The
`created_at` field carries `a.created_at`, which the SELECT does not emit
but the ORDER BY clause reads. -/
structure Row where
  id : Int
  name : String
  slug : String
  votes : Nat
  avg_score : Option ℚ
  created_at : Nat
deriving Repr, DecidableEq

/-- The leaderboard row of one artist in src/app.js. -/
def mkRow (s : Store) (a : Artist) : Row :=
  let n := (votesFor s a.id).length
  { id := a.id, name := a.name, slug := a.slug, votes := n,
    avg_score :=
      if n = 0 then none
      else some (round2 ((specTotalScore s a.id : ℚ) / (n : ℚ))),
    created_at := a.created_at }

/-- Key of `avg_score DESC NULLS LAST` as an ascending lexicographic value:
`NULL` sorts after every value, larger averages sort first. -/
def avgKey : Option ℚ → Lex (Int × ℚ)
  | some x => toLex (0, -x)
  | none => toLex (1, 0)

/-- Sort key of `ORDER BY avg_score DESC NULLS LAST, votes DESC,
a.created_at ASC`. -/
def rowKey (r : Row) : Lex (Lex (Int × ℚ) × Lex (Int × Nat)) :=
  toLex (avgKey r.avg_score, toLex (-(r.votes : Int), r.created_at))

/-- Comparison realising the ORDER BY clause of the src/app.js
`leaderboardStmt`. -/
def rowLe (r t : Row) : Prop :=
  rowKey r ≤ rowKey t

instance : DecidableRel rowLe :=
  fun r t => inferInstanceAs (Decidable (rowKey r ≤ rowKey t))

instance : IsTotal Row rowLe :=
  ⟨fun r t => le_total (rowKey r) (rowKey t)⟩

instance : IsTrans Row rowLe :=
  ⟨fun _ _ _ h h2 => le_trans h h2⟩

/-- Models `leaderboardStmt.all()` of src/app.js. -/
def leaderboard (s : Store) : List Row :=
  List.insertionSort rowLe (s.artists.map (mkRow s))

/-- Relation two distinct vote rows must satisfy under `uniq_artist_ip`. -/
def VoteKeyDistinct (v w : Vote) : Prop :=
  ¬(v.artist_id = w.artist_id ∧ v.ip_hash = w.ip_hash)

/-- The uniqueness invariant of the src/app.js vote store. -/
def UniqVotes (s : Store) : Prop :=
  s.votes.Pairwise VoteKeyDistinct

/-- States of the src/app.js store reachable from a fresh database through
the two write routes. -/
inductive Reachable : Store → Prop
  | init : Reachable emptyStore
  | create (staffCookie : Option String) (rawName suffix : String) (now : Nat)
      {s : Store} :
      Reachable s → Reachable (apiCreateArtist staffCookie rawName suffix now s).2
  | vote (W now : Nat) (hash guard ua : String) (an sn : Option ℚ) {s : Store} :
      Reachable s → Reachable (submitVote W now hash guard ua an sn s).2

end VotingApp.AppJs

namespace VotingApp.AppPt

/-- A successful vote insert preserves the pairwise uniqueness of
`(artist_id, ip_hash)`: the UNIQUE constraint has just checked the new
row's pair against every existing row. -/
theorem uniqVotes_insertVote (s : Store) (aid sc : Int) (hash : String)
    (now : Nat) (h : UniqVotes s) :
    ∀ s', insertVote s aid sc hash now = .ok s' → UniqVotes s' := by
  intro s' hok
  unfold insertVote at hok
  split at hok
  · exact absurd hok (by simp)
  next hp =>
    have hp' : votePairExists s.votes aid hash = false := by
      simpa using hp
    have hall : ∀ v ∈ s.votes, ¬((v.artist_id == aid && v.ip_hash == hash) = true) := by
      rw [votePairExists, List.any_eq_false] at hp'
      exact hp'
    cases hok
    unfold UniqVotes at h ⊢
    refine List.pairwise_append.mpr ⟨h, List.pairwise_singleton _ _, ?_⟩
    intro v hv w hw
    simp only [List.mem_singleton] at hw
    subst hw
    intro hcon
    exact hall v hv (by simp [hcon.1, hcon.2])

/-- The caught-and-translated insert of the vote route preserves the
uniqueness invariant. -/
theorem uniqVotes_persistVote (s : Store) (aid sc : Int) (hash : String)
    (now : Nat) (h : UniqVotes s) : UniqVotes (persistVote s aid sc hash now).2 := by
  unfold persistVote
  split
  · exact h
  next s' heq => exact uniqVotes_insertVote s aid sc hash now h s' heq

/-- The vote route preserves the uniqueness invariant on every path. -/
theorem uniqVotes_submitVote (W now : Nat) (hash : String) (an sn : Option ℚ)
    (s : Store) (h : UniqVotes s) : UniqVotes (submitVote W now hash an sn s).2 := by
  simp only [submitVote]
  repeat' split
  all_goals first
    | exact h
    | exact uniqVotes_persistVote _ _ _ _ _ h

/-- Artist creation never touches the vote table. -/
theorem uniqVotes_apiCreateArtist (c : Option String) (n suf : String)
    (s : Store) (h : UniqVotes s) : UniqVotes (apiCreateArtist c n suf s).2 := by
  simp only [apiCreateArtist, insertArtist]
  repeat' split
  all_goals first
    | exact h
    | (rename_i heq
       split at heq
       · exact absurd heq (by simp)
       · injection heq with hpair
         injection hpair with h1 h2
         subst h2
         exact h)

/-- Every reachable part_000/part_001 store satisfies the uniqueness
invariant. -/
theorem uniqVotes_of_reachable : ∀ s : Store, Reachable s → UniqVotes s := by
  intro s hr
  induction hr with
  | init => exact List.Pairwise.nil
  | create c n suf hs ih => exact uniqVotes_apiCreateArtist _ _ _ _ ih
  | vote W now hash an sn hs ih => exact uniqVotes_submitVote _ _ _ _ _ _ ih

end VotingApp.AppPt

namespace VotingApp.AppJs

/-- A successful vote insert preserves the pairwise uniqueness of
`(artist_id, ip_hash)` in the src/app.js store. -/
theorem uniqVotes_insertVote_js (s : Store) (aid sc : Int) (hash ua guard : String)
    (now : Nat) (h : UniqVotes s) :
    ∀ s', insertVote s aid sc hash ua guard now = .ok s' → UniqVotes s' := by
  intro s' hok
  unfold insertVote at hok
  split at hok
  · exact absurd hok (by simp)
  · split at hok
    · exact absurd hok (by simp)
    next hp =>
      have hp' : votePairExists s.votes aid hash = false := by
        simpa using hp
      have hall : ∀ v ∈ s.votes, ¬((v.artist_id == aid && v.ip_hash == hash) = true) := by
        rw [votePairExists, List.any_eq_false] at hp'
        exact hp'
      cases hok
      unfold UniqVotes at h ⊢
      refine List.pairwise_append.mpr ⟨h, List.pairwise_singleton _ _, ?_⟩
      intro v hv w hw
      simp only [List.mem_singleton] at hw
      subst hw
      intro hcon
      exact hall v hv (by simp [hcon.1, hcon.2])

/-- The cookie guard plus caught insert preserve the uniqueness invariant. -/
theorem uniqVotes_persistVote_js (s : Store) (aid sc : Int) (hash ua guard : String)
    (now : Nat) (h : UniqVotes s) :
    UniqVotes (persistVote s aid sc hash ua guard now).2 := by
  unfold persistVote
  split
  · exact h
  · split
    · exact h
    next s' heq => exact uniqVotes_insertVote_js s aid sc hash ua guard now h s' heq

/-- The src/app.js vote route preserves the uniqueness invariant on every
path. -/
theorem uniqVotes_submitVote_js (W now : Nat) (hash guard ua : String)
    (an sn : Option ℚ) (s : Store) (h : UniqVotes s) :
    UniqVotes (submitVote W now hash guard ua an sn s).2 := by
  simp only [submitVote]
  repeat' split
  all_goals first
    | exact h
    | exact uniqVotes_persistVote_js _ _ _ _ _ _ _ h

/-- Artist creation never touches the vote table. -/
theorem uniqVotes_apiCreateArtist_js (c : Option String) (n suf : String)
    (now : Nat) (s : Store) (h : UniqVotes s) :
    UniqVotes (apiCreateArtist c n suf now s).2 := by
  simp only [apiCreateArtist, insertArtist]
  repeat' split
  all_goals first
    | exact h
    | (rename_i heq
       split at heq
       · exact absurd heq (by simp)
       · injection heq with hpair
         injection hpair with h1 h2
         subst h2
         exact h)

/-- Every reachable src/app.js store satisfies the uniqueness invariant. -/
theorem uniqVotes_of_reachable_js : ∀ s : Store, Reachable s → UniqVotes s := by
  intro s hr
  induction hr with
  | init => exact List.Pairwise.nil
  | create c n suf now hs ih => exact uniqVotes_apiCreateArtist_js _ _ _ _ _ ih
  | vote W now hash guard ua an sn hs ih =>
      exact uniqVotes_submitVote_js _ _ _ _ _ _ _ _ ih

end VotingApp.AppJs

namespace VotingApp

/-- C1: for every reachable state of the vote store of either variant, at
most one live vote exists per `(artist_id, voter_identity_hash)` pair (the
list of vote rows is pairwise distinct on that pair), and every operation —
in particular every vote submission, accepted or rejected, with any window
configuration — preserves this invariant, because reachability is closed
under both write routes. -/
theorem C1_at_most_one_vote_per_pair :
    (∀ s : AppPt.Store, AppPt.Reachable s → AppPt.UniqVotes s) ∧
    (∀ s : AppJs.Store, AppJs.Reachable s → AppJs.UniqVotes s) :=
  ⟨AppPt.uniqVotes_of_reachable, AppJs.uniqVotes_of_reachable_js⟩

/-- Witness for C1 at concrete reachable states: a store reached by one
artist creation and one vote submission, and a fresh store. -/
theorem C1_at_most_one_vote_per_pair_witness :
    AppPt.UniqVotes (AppPt.submitVote 0 0 "h" (some 1) (some 7)
      (AppPt.apiCreateArtist (some "ok") "Ana" "abc" AppPt.emptyStore).2).2 ∧
    AppJs.UniqVotes AppJs.emptyStore :=
  ⟨C1_at_most_one_vote_per_pair.1 _
      (AppPt.Reachable.vote 0 0 "h" (some 1) (some 7)
        (AppPt.Reachable.create (some "ok") "Ana" "abc" AppPt.Reachable.init)),
    C1_at_most_one_vote_per_pair.2 _ AppJs.Reachable.init⟩

/-- Artist used by the windowed-mode scenario (W = 30 minutes). -/
def winAna : AppPt.Artist :=
  { id := 1, name := "Ana", slug := "ana-x1y2z3a4" }

/-- Store with one artist and no votes. -/
def winStore0 : AppPt.Store :=
  { artists := [winAna], votes := [], nextArtistId := 2, nextVoteId := 1 }

/-- The vote the identity hashing to `"hA"` casts at `t = 0`. -/
def winVote : AppPt.Vote :=
  { id := 1, artist_id := 1, score := 7, ip_hash := "hA", created_at := 0 }

/-- Store after the accepted vote at `t = 0`. -/
def winStore1 : AppPt.Store :=
  { artists := [winAna], votes := [winVote], nextArtistId := 2, nextVoteId := 2 }

/-- C3, evaluated on part_000/part_001 in windowed mode, W = 30: the vote at
`t = 0` is accepted; the re-vote at `t = 10` min is rejected 409 with the
retry estimate `ceil(30 - 10) = 20`; but the re-vote at `t = 31` min — which
the claim, the spec, and the code's own comment (`> 0 = pode revotar após N
minutos`) say is accepted — is rejected 409 `alreadyVoted`, because the
windowed pre-check passes and the insert then still violates the permanent
`UNIQUE (artist_id, ip_hash)` constraint, whose rows never age out. -/
theorem C3_revote_after_window_still_rejected :
    AppPt.submitVote 30 0 "hA" (some 1) (some 7) winStore0 =
      (.accepted, winStore1) ∧
    AppPt.submitVote 30 600000 "hA" (some 1) (some 7) winStore1 =
      (.tooSoon 20, winStore1) ∧
    AppPt.status (.tooSoon 20) = 409 ∧
    AppPt.submitVote 30 1860000 "hA" (some 1) (some 7) winStore1 =
      (.alreadyVoted, winStore1) ∧
    AppPt.status .alreadyVoted = 409 ∧
    (AppPt.submitVote 30 1860000 "hA" (some 1) (some 7) winStore1).1 ≠
      .accepted := by
  refine ⟨?_, ?_, rfl, ?_, rfl, ?_⟩
  · norm_num [AppPt.submitVote, isIntNum, AppPt.getArtistById,
      AppPt.getLastVoteByIp, AppPt.persistVote, AppPt.insertVote,
      AppPt.votePairExists, winStore0, winStore1, winAna, winVote]
  · norm_num [AppPt.submitVote, isIntNum, AppPt.getArtistById,
      AppPt.getLastVoteByIp, AppPt.persistVote, AppPt.insertVote,
      AppPt.votePairExists, winStore0, winStore1, winAna, winVote]
  · norm_num [AppPt.submitVote, isIntNum, AppPt.getArtistById,
      AppPt.getLastVoteByIp, AppPt.persistVote, AppPt.insertVote,
      AppPt.votePairExists, winStore0, winStore1, winAna, winVote]
  · norm_num [AppPt.submitVote, isIntNum, AppPt.getArtistById,
      AppPt.getLastVoteByIp, AppPt.persistVote, AppPt.insertVote,
      AppPt.votePairExists, winStore0, winStore1, winAna, winVote]
    decide

/-- Artist of the persist-time-race scenarios. -/
def raceArtist : AppJs.Artist :=
  { id := 1, name := "Ana", slug := "ana-x", created_at := 0 }

/-- Existing vote of identity `"hA"` (cookie `"c1"`) at `t = 0`. -/
def raceVote : AppJs.Vote :=
  { id := 1, artist_id := 1, score := 7, ip_hash := "hA", user_agent := "ua0",
    cookie_guard := "c1", created_at := 0 }

/-- The src/app.js store in which a submission passes the windowed duplicate
pre-check (the existing vote is 31 minutes old, the window 30) and the
cookie guard (fresh cookie `"c2"`), yet the insert hits `uniq_artist_ip`. -/
def raceStore : AppJs.Store :=
  { artists := [raceArtist], votes := [raceVote], nextArtistId := 2,
    nextVoteId := 2 }

/-- C2 fails on src/app.js: a submission that passes validation and the
duplicate pre-check but whose insert violates the uniqueness constraint is
answered with HTTP 400 (`'Vote not recorded'`), not with the claimed 409
`AlreadyVoted` — though the store is indeed left unchanged. -/
theorem C2_counterexample :
    AppJs.submitVote 30 1860000 "hA" "c2" "ua1" (some 1) (some 5) raceStore =
      (.notRecorded, raceStore) ∧
    AppJs.status .notRecorded = 400 ∧
    AppJs.status
      (AppJs.submitVote 30 1860000 "hA" "c2" "ua1" (some 1) (some 5)
        raceStore).1 ≠ 409 := by
  refine ⟨?_, rfl, ?_⟩
  · norm_num [AppJs.submitVote, AppJs.getArtistByIdNum, AppJs.recentVoteExists,
      AppJs.persistVote, AppJs.countVotesByCookie, AppJs.insertVote,
      AppJs.votePairExists, raceStore, raceArtist, raceVote]
    all_goals decide
  · norm_num [AppJs.submitVote, AppJs.getArtistByIdNum, AppJs.recentVoteExists,
      AppJs.persistVote, AppJs.countVotesByCookie, AppJs.insertVote,
      AppJs.votePairExists, AppJs.status, raceStore, raceArtist, raceVote]
    all_goals decide

/-- C2 (amended): when a vote submission passes validation and the duplicate
pre-check but the insert violates the `(artist_id, ip_hash)` uniqueness
constraint, the violation is caught and the store is left unchanged in both
variants; part_000/part_001 answer 409 `AlreadyVoted` as the claim states,
src/app.js answers 400 `'Vote not recorded'` (still not an internal
error). -/
theorem C2_amended_unique_violation_at_persist :
    (∀ (W now : Nat) (hash : String) (aq sq : ℚ) (s : AppPt.Store),
      aq.den = 1 → sq.den = 1 → ¬(sq.num < 0 ∨ 10 < sq.num) →
      (AppPt.getArtistById s aq.num).isSome = true →
      (0 < W → ∀ v, AppPt.getLastVoteByIp s aq.num hash = some v →
        ¬(((now : ℚ) - (v.created_at : ℚ)) / 60000 < (W : ℚ))) →
      AppPt.votePairExists s.votes aq.num hash = true →
      AppPt.submitVote W now hash (some aq) (some sq) s = (.alreadyVoted, s) ∧
        AppPt.status .alreadyVoted = 409) ∧
    (∀ (W now : Nat) (hash guard ua : String) (aq sq : ℚ) (s : AppJs.Store)
      (artist : AppJs.Artist),
      ¬(sq < 0 ∨ 10 < sq ∨ ¬sq.den = 1) →
      AppJs.getArtistByIdNum s aq = some artist →
      (0 < W → AppJs.recentVoteExists s artist.id hash W now = false) →
      (W = 0 → AppJs.getVoteByArtistAndIp s artist.id hash = none) →
      AppJs.countVotesByCookie s artist.id guard = 0 →
      AppJs.votePairExists s.votes artist.id hash = true →
      AppJs.submitVote W now hash guard ua (some aq) (some sq) s =
        (.notRecorded, s) ∧
        AppJs.status .notRecorded = 400) := by
  constructor
  · intro W now hash aq sq s h1 h2 hr hart hwin hpair
    refine ⟨?_, rfl⟩
    obtain ⟨artist, ha⟩ := Option.isSome_iff_exists.mp hart
    simp only [AppPt.submitVote, isIntNum, h1, h2, Option.getD_some, beq_self_eq_true,
      Bool.and_self, Bool.not_true, Bool.false_eq_true, if_false, if_neg hr, ha]
    have hpersist :
        AppPt.persistVote s aq.num sq.num hash now = (.alreadyVoted, s) := by
      simp [AppPt.persistVote, AppPt.insertVote, hpair]
    by_cases hW : 0 < W
    · simp only [if_pos hW]
      cases hlast : AppPt.getLastVoteByIp s aq.num hash with
      | none => exact hpersist
      | some v =>
          simp only [if_neg (hwin hW v hlast)]
          exact hpersist
    · simp only [if_neg hW]
      exact hpersist
  · intro W now hash guard ua aq sq s artist hr hart hrec hdup hck hpair
    refine ⟨?_, rfl⟩
    have hden : sq.den = 1 := by
      by_contra hd
      exact hr (Or.inr (Or.inr hd))
    have hsq : (sq.num : ℚ) = sq := by
      have := Rat.num_div_den sq
      rw [hden] at this
      simpa using this
    have hrn : ¬(sq.num < 0 ∨ 10 < sq.num) := by
      rintro (hlt | hgt)
      · exact hr (Or.inl (by rw [← hsq]; exact_mod_cast hlt))
      · exact hr (Or.inr (Or.inl (by rw [← hsq]; exact_mod_cast hgt)))
    simp only [AppJs.submitVote, if_neg hr, hart]
    have hpersist :
        AppJs.persistVote s artist.id sq.num hash ua guard now =
          (.notRecorded, s) := by
      simp [AppJs.persistVote, AppJs.insertVote, hck, if_neg hrn, hpair]
    by_cases hW : 0 < W
    · simp only [if_pos hW, hrec hW, Bool.false_eq_true, if_false]
      exact hpersist
    · have hW0 : W = 0 := Nat.eq_zero_of_not_pos hW
      simp only [if_neg hW, hdup hW0]
      exact hpersist

/-- Store for the part_000/part_001 half of the C2 witness: unlimited mode,
where the route has no pre-check at all and the duplicate surfaces only at
the insert. -/
def c2PtStore : AppPt.Store :=
  { artists := [{ id := 1, name := "Ana", slug := "ana-x" }],
    votes := [{ id := 1, artist_id := 1, score := 7, ip_hash := "hA",
                created_at := 0 }],
    nextArtistId := 2, nextVoteId := 2 }

/-- Witness for C2 (amended) at concrete inputs for both variants. -/
theorem C2_amended_witness :
    AppPt.submitVote 0 0 "hA" (some 1) (some 5) c2PtStore =
      (.alreadyVoted, c2PtStore) ∧
    AppJs.submitVote 30 1860000 "hA" "c2" "ua1" (some 1) (some 5) raceStore =
      (.notRecorded, raceStore) := by
  constructor
  · exact (C2_amended_unique_violation_at_persist.1 0 0 "hA" 1 5 c2PtStore
      (by norm_num) (by norm_num) (by norm_num)
      (by norm_num [AppPt.getArtistById, c2PtStore])
      (by norm_num)
      (by norm_num [AppPt.votePairExists, c2PtStore])).1
  · exact (C2_amended_unique_violation_at_persist.2 30 1860000 "hA" "c2" "ua1"
      1 5 raceStore raceArtist
      (by norm_num)
      (by norm_num [AppJs.getArtistByIdNum, raceStore, raceArtist])
      (by norm_num [AppJs.recentVoteExists, raceStore, raceVote, raceArtist])
      (by norm_num)
      (by norm_num [AppJs.countVotesByCookie, raceStore, raceVote, raceArtist]
          all_goals decide)
      (by norm_num [AppJs.votePairExists, raceStore, raceVote, raceArtist])).1

/-- Conversion of the part_000/part_001 ORDER BY key comparison into the
explicit clause order: `total_score DESC`, then `votes DESC`, then `name
ASC`. -/
theorem AppPt.rowLe_iff (r t : AppPt.Row) : AppPt.rowLe r t ↔
    t.total_score < r.total_score ∨ (r.total_score = t.total_score ∧
      (t.votes < r.votes ∨ (r.votes = t.votes ∧ r.name ≤ t.name))) := by
  rw [AppPt.rowLe, AppPt.rowKey, AppPt.rowKey, Prod.Lex.le_iff, Prod.Lex.le_iff]
  simp [neg_lt_neg_iff, neg_inj, Nat.cast_lt, Nat.cast_inj]

/-- First artist of the ordering counterexample: one vote of 10 (sum 10,
average 10). -/
def ordArtistA : AppJs.Artist :=
  { id := 1, name := "a", slug := "a-x", created_at := 10 }

/-- Second artist of the ordering counterexample: two votes of 9 (sum 18,
average 9). -/
def ordArtistB : AppJs.Artist :=
  { id := 2, name := "b", slug := "b-x", created_at := 20 }

/-- Store on which the src/app.js leaderboard order disagrees with a
`total_score`-primary order. -/
def ordStore : AppJs.Store :=
  { artists := [ordArtistA, ordArtistB],
    votes :=
      [{ id := 1, artist_id := 1, score := 10, ip_hash := "h1",
         user_agent := "u", cookie_guard := "c1", created_at := 0 },
       { id := 2, artist_id := 2, score := 9, ip_hash := "h2",
         user_agent := "u", cookie_guard := "c2", created_at := 0 },
       { id := 3, artist_id := 2, score := 9, ip_hash := "h3",
         user_agent := "u", cookie_guard := "c3", created_at := 0 }],
    nextArtistId := 3, nextVoteId := 4 }

/-- The src/app.js leaderboard row of `ordArtistA`. -/
def ordRowA : AppJs.Row :=
  { id := 1, name := "a", slug := "a-x", votes := 1, avg_score := some 10,
    created_at := 10 }

/-- The src/app.js leaderboard row of `ordArtistB`. -/
def ordRowB : AppJs.Row :=
  { id := 2, name := "b", slug := "b-x", votes := 2, avg_score := some 9,
    created_at := 20 }

/-- C4 fails on src/app.js: its `leaderboardStmt` orders by `avg_score`
(it computes no `total_score` at all), so the artist whose votes sum to 18
is ranked below the artist whose votes sum to 10 — not a descending order
on `total_score`. -/
theorem C4_counterexample :
    (AppJs.leaderboard ordStore).map AppJs.Row.id = [1, 2] ∧
    AppJs.specTotalScore ordStore 2 > AppJs.specTotalScore ordStore 1 := by
  have hA : AppJs.mkRow ordStore ordArtistA = ordRowA := by
    norm_num [AppJs.mkRow, AppJs.votesFor, AppJs.specTotalScore, round2,
      ordStore, ordArtistA, ordRowA, round_eq]
  have hB : AppJs.mkRow ordStore ordArtistB = ordRowB := by
    norm_num [AppJs.mkRow, AppJs.votesFor, AppJs.specTotalScore, round2,
      ordStore, ordArtistB, ordRowB, round_eq]
  have hlt : AppJs.avgKey (some 10) < AppJs.avgKey (some 9) := by
    rw [AppJs.avgKey, AppJs.avgKey, Prod.Lex.lt_iff]
    right
    norm_num
  have hle : AppJs.rowLe ordRowA ordRowB := by
    rw [AppJs.rowLe, AppJs.rowKey, AppJs.rowKey, Prod.Lex.le_iff]
    left
    exact hlt
  have hartists : ordStore.artists = [ordArtistA, ordArtistB] := rfl
  have hlead : AppJs.leaderboard ordStore = [ordRowA, ordRowB] := by
    rw [AppJs.leaderboard, hartists, List.map_cons, List.map_cons,
      List.map_nil, hA, hB]
    simp only [List.insertionSort, List.orderedInsert]
    rw [if_pos hle]
  refine ⟨?_, ?_⟩
  · rw [hlead]
    rfl
  · norm_num [AppJs.specTotalScore, AppJs.votesFor, ordStore]

/-- C4 (amended): the part_000/part_001 leaderboard is sorted descending by
`total_score`, with `votes` descending and artist name ascending as
tie-breaks, and is a permutation of one row per artist; the src/app.js
leaderboard instead is sorted by its own key — `avg_score DESC NULLS LAST,
votes DESC, created_at ASC` (`AppJs.rowLe`) — and computes no
`total_score`. -/
theorem C4_amended_leaderboard_order :
    (∀ s : AppPt.Store,
      (AppPt.leaderboard s).Pairwise (fun r t =>
        t.total_score < r.total_score ∨ (r.total_score = t.total_score ∧
          (t.votes < r.votes ∨ (r.votes = t.votes ∧ r.name ≤ t.name)))) ∧
      (AppPt.leaderboard s).Perm (s.artists.map (AppPt.mkRow s))) ∧
    (∀ s : AppJs.Store,
      (AppJs.leaderboard s).Pairwise AppJs.rowLe ∧
      (AppJs.leaderboard s).Perm (s.artists.map (AppJs.mkRow s))) := by
  constructor
  · intro s
    refine ⟨?_, List.perm_insertionSort _ _⟩
    have hs := List.sorted_insertionSort AppPt.rowLe (s.artists.map (AppPt.mkRow s))
    exact List.Pairwise.imp (fun h => (AppPt.rowLe_iff _ _).mp h) hs
  · intro s
    exact ⟨List.sorted_insertionSort _ _, List.perm_insertionSort _ _⟩

/-- Artist of the no-total-score counterexample. -/
def cntArtist : AppJs.Artist :=
  { id := 1, name := "a", slug := "a-x", created_at := 0 }

/-- A set of 101 votes for artist 1 whose scores sum to 50 (fifty 1s,
fifty-one 0s). -/
def cntVotes1 : List AppJs.Vote :=
  (List.range 101).map (fun i =>
    { id := (i : Int), artist_id := 1, score := if i < 50 then 1 else 0,
      ip_hash := "h", user_agent := "u", cookie_guard := "c", created_at := 0 })

/-- A set of 101 votes for artist 1 whose scores sum to 51 (fifty-one 1s,
fifty 0s). -/
def cntVotes2 : List AppJs.Vote :=
  (List.range 101).map (fun i =>
    { id := (i : Int), artist_id := 1, score := if i < 51 then 1 else 0,
      ip_hash := "h", user_agent := "u", cookie_guard := "c", created_at := 0 })

/-- The src/app.js store whose artist's votes sum to 50. -/
def cnt1Store : AppJs.Store :=
  { artists := [cntArtist], votes := cntVotes1, nextArtistId := 2,
    nextVoteId := 102 }

/-- The src/app.js store whose artist's votes sum to 51. -/
def cnt2Store : AppJs.Store :=
  { artists := [cntArtist], votes := cntVotes2, nextArtistId := 2,
    nextVoteId := 102 }

/-- The common leaderboard row of both counterexample stores: 101 votes,
rounded average `0.50` in both. -/
def cntRow : AppJs.Row :=
  { id := 1, name := "a", slug := "a-x", votes := 101,
    avg_score := some (1 / 2), created_at := 0 }

set_option maxRecDepth 8192 in
/-- C5 fails on src/app.js, whose `leaderboardStmt` the claim also cites:
that query selects no `total_score` column, and its result does not even
determine one — the two stores here give their artist score sums 50 and 51
(101 votes each, rounded average `0.50` both times) yet produce identical
query results, so no component of any src/app.js leaderboard result can
equal the sum of the artist's vote scores, and a vote-less artist cannot
appear "with `total_score = 0`" there either. -/
theorem C5_counterexample :
    AppJs.leaderboard cnt1Store = [cntRow] ∧
    AppJs.leaderboard cnt2Store = [cntRow] ∧
    AppJs.specTotalScore cnt1Store 1 = 50 ∧
    AppJs.specTotalScore cnt2Store 1 = 51 ∧
    ¬∃ f : AppJs.Row → ℤ, ∀ (s : AppJs.Store), ∀ r ∈ AppJs.leaderboard s,
        f r = AppJs.specTotalScore s r.id := by
  have hsum1 : AppJs.specTotalScore cnt1Store 1 = 50 := by decide
  have hsum2 : AppJs.specTotalScore cnt2Store 1 = 51 := by decide
  have hlen1 : (AppJs.votesFor cnt1Store 1).length = 101 := by decide
  have hlen2 : (AppJs.votesFor cnt2Store 1).length = 101 := by decide
  have hrow1 : AppJs.mkRow cnt1Store cntArtist = cntRow := by
    simp only [AppJs.mkRow, cntArtist]
    rw [hlen1, hsum1]
    norm_num [cntRow, round2, round_eq]
  have hrow2 : AppJs.mkRow cnt2Store cntArtist = cntRow := by
    simp only [AppJs.mkRow, cntArtist]
    rw [hlen2, hsum2]
    norm_num [cntRow, round2, round_eq]
  have hld1 : AppJs.leaderboard cnt1Store = [cntRow] := by
    rw [AppJs.leaderboard, show cnt1Store.artists = [cntArtist] from rfl,
      List.map_cons, List.map_nil, hrow1]
    simp [List.insertionSort, List.orderedInsert]
  have hld2 : AppJs.leaderboard cnt2Store = [cntRow] := by
    rw [AppJs.leaderboard, show cnt2Store.artists = [cntArtist] from rfl,
      List.map_cons, List.map_nil, hrow2]
    simp [List.insertionSort, List.orderedInsert]
  refine ⟨hld1, hld2, hsum1, hsum2, ?_⟩
  rintro ⟨f, hf⟩
  have hm1 : cntRow ∈ AppJs.leaderboard cnt1Store := by
    rw [hld1]
    exact List.mem_singleton_self _
  have hm2 : cntRow ∈ AppJs.leaderboard cnt2Store := by
    rw [hld2]
    exact List.mem_singleton_self _
  have e1 := hf cnt1Store cntRow hm1
  have e2 := hf cnt2Store cntRow hm2
  rw [show cntRow.id = 1 from rfl, hsum1] at e1
  rw [show cntRow.id = 1 from rfl, hsum2] at e2
  omega

/-- C5 (amended): in every part_000/part_001 leaderboard result the claim
holds in full — `total_score` is the sum of the scores of the artist's
stored votes, `votes` their count, `avg_score` the quotient rounded to two
decimals when votes exist and `NULL` (`none`) otherwise, with every
artist, vote-less ones included, contributing exactly its row (no division
by zero).  The src/app.js leaderboard satisfies the same count and average
clauses — `votes` is the count and `avg_score` the rounded mean of the
artist's vote scores, `NULL` for vote-less artists, who still appear — but
emits no `total_score` column, so the `total_score` clauses do not apply
to it (see the counterexample). -/
theorem C5_amended_leaderboard_aggregates :
    (∀ s : AppPt.Store,
      (∀ r ∈ AppPt.leaderboard s,
        r.total_score = AppPt.sumScores s r.id ∧
        r.votes = (AppPt.votesFor s r.id).length ∧
        (r.votes = 0 → r.avg_score = none) ∧
        (0 < r.votes →
          r.avg_score = some (round2 ((r.total_score : ℚ) / (r.votes : ℚ))))) ∧
      (∀ a ∈ s.artists, ∃ r ∈ AppPt.leaderboard s, r.id = a.id)) ∧
    (∀ s : AppJs.Store,
      (∀ r ∈ AppJs.leaderboard s,
        r.votes = (AppJs.votesFor s r.id).length ∧
        (r.votes = 0 → r.avg_score = none) ∧
        (0 < r.votes →
          r.avg_score = some (round2
            ((AppJs.specTotalScore s r.id : ℚ) / (r.votes : ℚ))))) ∧
      (∀ a ∈ s.artists, ∃ r ∈ AppJs.leaderboard s, r.id = a.id)) := by
  constructor
  · intro s
    have hmem : ∀ r : AppPt.Row,
        r ∈ AppPt.leaderboard s ↔ r ∈ s.artists.map (AppPt.mkRow s) :=
      fun r => (List.perm_insertionSort _ _).mem_iff
    constructor
    · intro r hr
      rw [hmem] at hr
      obtain ⟨a, ha, rfl⟩ := List.mem_map.mp hr
      refine ⟨rfl, rfl, ?_, ?_⟩
      · intro h0
        simp only [AppPt.mkRow] at h0 ⊢
        rw [if_pos h0]
      · intro hpos
        simp only [AppPt.mkRow] at hpos ⊢
        rw [if_neg (by omega)]
    · intro a ha
      exact ⟨AppPt.mkRow s a, (hmem _).mpr (List.mem_map_of_mem _ ha), rfl⟩
  · intro s
    have hmem : ∀ r : AppJs.Row,
        r ∈ AppJs.leaderboard s ↔ r ∈ s.artists.map (AppJs.mkRow s) :=
      fun r => (List.perm_insertionSort _ _).mem_iff
    constructor
    · intro r hr
      rw [hmem] at hr
      obtain ⟨a, ha, rfl⟩ := List.mem_map.mp hr
      refine ⟨rfl, ?_, ?_⟩
      · intro h0
        simp only [AppJs.mkRow] at h0 ⊢
        rw [if_pos h0]
      · intro hpos
        simp only [AppJs.mkRow] at hpos ⊢
        rw [if_neg (by omega)]
    · intro a ha
      exact ⟨AppJs.mkRow s a, (hmem _).mpr (List.mem_map_of_mem _ ha), rfl⟩

/-- Store with one artist and no votes for the C5 witness. -/
def aggStore : AppPt.Store :=
  { artists := [{ id := 1, name := "Zed", slug := "zed-a1" }], votes := [],
    nextArtistId := 2, nextVoteId := 1 }

/-- The leaderboard row of the vote-less artist of `aggStore`. -/
def aggRow : AppPt.Row :=
  { id := 1, name := "Zed", votes := 0, total_score := 0, avg_score := none }

/-- The src/app.js store with one artist and no votes for the C5 witness. -/
def aggStoreJs : AppJs.Store :=
  { artists := [{ id := 1, name := "Zed", slug := "zed-a1", created_at := 0 }],
    votes := [], nextArtistId := 2, nextVoteId := 1 }

/-- The src/app.js leaderboard row of the vote-less artist of `aggStoreJs`. -/
def aggRowJs : AppJs.Row :=
  { id := 1, name := "Zed", slug := "zed-a1", votes := 0, avg_score := none,
    created_at := 0 }

/-- Witness for C5 (amended) at concrete stores of both variants: the
vote-less artist appears, with zero total in part_000/part_001 and a `NULL`
average in both. -/
theorem C5_amended_leaderboard_aggregates_witness :
    aggRow ∈ AppPt.leaderboard aggStore ∧
    aggRow.total_score = AppPt.sumScores aggStore aggRow.id ∧
    aggRow.avg_score = none ∧
    aggRowJs ∈ AppJs.leaderboard aggStoreJs ∧
    aggRowJs.avg_score = none := by
  have hm : aggRow ∈ AppPt.leaderboard aggStore := by
    norm_num [AppPt.leaderboard, AppPt.mkRow, AppPt.votesFor, AppPt.sumScores,
      aggStore, aggRow, List.insertionSort, List.orderedInsert]
  have hmJs : aggRowJs ∈ AppJs.leaderboard aggStoreJs := by
    norm_num [AppJs.leaderboard, AppJs.mkRow, AppJs.votesFor,
      AppJs.specTotalScore, aggStoreJs, aggRowJs, List.insertionSort,
      List.orderedInsert]
  have h1 := (C5_amended_leaderboard_aggregates.1 aggStore).1 aggRow hm
  have h2 := (C5_amended_leaderboard_aggregates.2 aggStoreJs).1 aggRowJs hmJs
  exact ⟨hm, h1.1, h1.2.2.1 rfl, hmJs, h2.2.1 rfl⟩

/-- A non-integer `artist_id` or `score` makes the part_000/part_001 route
answer with its first rule. -/
theorem AppPt.submit_invalid (W now : Nat) (hash : String) (an sn : Option ℚ)
    (s : AppPt.Store) (h : (isIntNum an && isIntNum sn) = false) :
    AppPt.submitVote W now hash an sn s = (.invalidInput, s) := by
  simp [AppPt.submitVote, h]

/-- An integer score outside `[0, 10]` makes the part_000/part_001 route
answer with its second rule. -/
theorem AppPt.submit_outOfRange (W now : Nat) (hash : String) (aq sq : ℚ)
    (s : AppPt.Store) (h1 : aq.den = 1) (h2 : sq.den = 1)
    (hr : sq.num < 0 ∨ 10 < sq.num) :
    AppPt.submitVote W now hash (some aq) (some sq) s = (.outOfRange, s) := by
  simp only [AppPt.submitVote, isIntNum, h1, h2, Option.getD_some,
    beq_self_eq_true, Bool.and_self, Bool.not_true, Bool.false_eq_true,
    if_false, if_pos hr]

/-- A valid score for an unknown artist makes the part_000/part_001 route
answer with its third rule. -/
theorem AppPt.submit_notFound (W now : Nat) (hash : String) (aq sq : ℚ)
    (s : AppPt.Store) (h1 : aq.den = 1) (h2 : sq.den = 1)
    (hr : ¬(sq.num < 0 ∨ 10 < sq.num))
    (hnone : AppPt.getArtistById s aq.num = none) :
    AppPt.submitVote W now hash (some aq) (some sq) s = (.artistNotFound, s) := by
  simp only [AppPt.submitVote, isIntNum, h1, h2, Option.getD_some,
    beq_self_eq_true, Bool.and_self, Bool.not_true, Bool.false_eq_true,
    if_false, if_neg hr, hnone]

/-- A request field that is not a number makes the src/app.js route answer
with its `typeof` rule. -/
theorem AppJs.submit_invalid_js (W now : Nat) (hash guard ua : String)
    (an sn : Option ℚ) (s : AppJs.Store) (h : an = none ∨ sn = none) :
    AppJs.submitVote W now hash guard ua an sn s = (.invalidInput, s) := by
  cases h with
  | inl h => subst h; rfl
  | inr h => subst h; cases an <;> rfl

/-- A numeric score that is negative, above 10 or non-integral makes the
src/app.js route answer with its single combined score rule. -/
theorem AppJs.submit_scoreInvalid (W now : Nat) (hash guard ua : String)
    (aq sq : ℚ) (s : AppJs.Store) (h : sq < 0 ∨ 10 < sq ∨ ¬sq.den = 1) :
    AppJs.submitVote W now hash guard ua (some aq) (some sq) s =
      (.scoreInvalid, s) := by
  simp only [AppJs.submitVote, if_pos h]

/-- A valid score for an unknown artist makes the src/app.js route answer
404. -/
theorem AppJs.submit_notFound_js (W now : Nat) (hash guard ua : String)
    (aq sq : ℚ) (s : AppJs.Store) (hr : ¬(sq < 0 ∨ 10 < sq ∨ ¬sq.den = 1))
    (hnone : AppJs.getArtistByIdNum s aq = none) :
    AppJs.submitVote W now hash guard ua (some aq) (some sq) s =
      (.artistNotFound, s) := by
  simp only [AppJs.submitVote, if_neg hr, hnone]

/-- C6 fails on src/app.js: a numeric, non-integer score such as 3.5 passes
the `typeof` check and is rejected by the combined second rule — the one
whose message is `'Score must be an integer 0–10'`, shared with `score=11` —
not by the distinct `InvalidInput` rule the claim requires. -/
theorem C6_counterexample :
    (AppJs.submitVote 0 0 "h" "c" "u" (some 1) (some (3.5 : ℚ))
        AppJs.emptyStore).1 = .scoreInvalid ∧
    AppJs.status .scoreInvalid = 400 ∧
    (AppJs.submitVote 0 0 "h" "c" "u" (some 1) (some (3.5 : ℚ))
        AppJs.emptyStore).1 ≠ .invalidInput := by
  have h : AppJs.submitVote 0 0 "h" "c" "u" (some 1) (some (3.5 : ℚ))
      AppJs.emptyStore = (.scoreInvalid, AppJs.emptyStore) :=
    AppJs.submit_scoreInvalid 0 0 "h" "c" "u" 1 (3.5 : ℚ) AppJs.emptyStore
      (by norm_num)
  rw [h]
  exact ⟨rfl, rfl, by decide⟩

/-- C6 (amended): part_000/part_001 validate exactly in the claimed
fail-fast order — non-integer score 400 `InvalidInput`, then out-of-range
400 `OutOfRange`, then unknown artist 404 — so `score=3.5` yields
`InvalidInput` and `score=11` yields `OutOfRange` there.  In src/app.js the
`InvalidInput` rule only catches non-number fields, and a numeric
non-integer such as 3.5 falls — like 11 — to the single combined second
rule (400 `'Score must be an integer 0–10'`), with the 404 check still
last. -/
theorem C6_amended_validation_order :
    (∀ (W now : Nat) (hash : String) (an sn : Option ℚ) (s : AppPt.Store),
      (isIntNum an && isIntNum sn) = false →
      AppPt.submitVote W now hash an sn s = (.invalidInput, s) ∧
        AppPt.status .invalidInput = 400) ∧
    (∀ (W now : Nat) (hash : String) (aq sq : ℚ) (s : AppPt.Store),
      aq.den = 1 → sq.den = 1 → (sq.num < 0 ∨ 10 < sq.num) →
      AppPt.submitVote W now hash (some aq) (some sq) s = (.outOfRange, s) ∧
        AppPt.status .outOfRange = 400) ∧
    (∀ (W now : Nat) (hash : String) (aq sq : ℚ) (s : AppPt.Store),
      aq.den = 1 → sq.den = 1 → ¬(sq.num < 0 ∨ 10 < sq.num) →
      AppPt.getArtistById s aq.num = none →
      AppPt.submitVote W now hash (some aq) (some sq) s = (.artistNotFound, s) ∧
        AppPt.status .artistNotFound = 404) ∧
    (∀ (W now : Nat) (hash : String) (an : Option ℚ) (s : AppPt.Store),
      AppPt.submitVote W now hash an (some (3.5 : ℚ)) s = (.invalidInput, s)) ∧
    (∀ (W now : Nat) (hash : String) (aq : ℚ) (s : AppPt.Store), aq.den = 1 →
      AppPt.submitVote W now hash (some aq) (some (11 : ℚ)) s =
        (.outOfRange, s)) ∧
    (∀ (W now : Nat) (hash guard ua : String) (an sn : Option ℚ)
      (s : AppJs.Store), an = none ∨ sn = none →
      AppJs.submitVote W now hash guard ua an sn s = (.invalidInput, s)) ∧
    (∀ (W now : Nat) (hash guard ua : String) (aq sq : ℚ) (s : AppJs.Store),
      (sq < 0 ∨ 10 < sq ∨ ¬sq.den = 1) →
      AppJs.submitVote W now hash guard ua (some aq) (some sq) s =
        (.scoreInvalid, s) ∧ AppJs.status .scoreInvalid = 400) ∧
    (∀ (W now : Nat) (hash guard ua : String) (aq sq : ℚ) (s : AppJs.Store),
      ¬(sq < 0 ∨ 10 < sq ∨ ¬sq.den = 1) →
      AppJs.getArtistByIdNum s aq = none →
      AppJs.submitVote W now hash guard ua (some aq) (some sq) s =
        (.artistNotFound, s) ∧ AppJs.status .artistNotFound = 404) := by
  refine ⟨?_, ?_, ?_, ?_, ?_, ?_, ?_, ?_⟩
  · intro W now hash an sn s h
    exact ⟨AppPt.submit_invalid W now hash an sn s h, rfl⟩
  · intro W now hash aq sq s h1 h2 hr
    exact ⟨AppPt.submit_outOfRange W now hash aq sq s h1 h2 hr, rfl⟩
  · intro W now hash aq sq s h1 h2 hr hnone
    exact ⟨AppPt.submit_notFound W now hash aq sq s h1 h2 hr hnone, rfl⟩
  · intro W now hash an s
    refine AppPt.submit_invalid W now hash an (some (3.5 : ℚ)) s ?_
    have : isIntNum (some (3.5 : ℚ)) = false := by
      simp only [isIntNum, beq_eq_false_iff_ne, ne_eq]
      norm_num
    rw [this, Bool.and_false]
  · intro W now hash aq s h1
    refine AppPt.submit_outOfRange W now hash aq 11 s h1 (by norm_num) ?_
    right
    norm_num
  · intro W now hash guard ua an sn s h
    exact AppJs.submit_invalid_js W now hash guard ua an sn s h
  · intro W now hash guard ua aq sq s h
    exact ⟨AppJs.submit_scoreInvalid W now hash guard ua aq sq s h, rfl⟩
  · intro W now hash guard ua aq sq s hr hnone
    exact ⟨AppJs.submit_notFound_js W now hash guard ua aq sq s hr hnone, rfl⟩

/-- Witness for C6 (amended) at concrete inputs: 3.5 and 11 on both
variants, plus a missing score and an unknown artist. -/
theorem C6_amended_validation_order_witness :
    AppPt.submitVote 0 0 "h" (some 1) (some (3.5 : ℚ)) AppPt.emptyStore =
      (.invalidInput, AppPt.emptyStore) ∧
    AppPt.submitVote 0 0 "h" (some 1) (some (11 : ℚ)) AppPt.emptyStore =
      (.outOfRange, AppPt.emptyStore) ∧
    AppPt.submitVote 0 0 "h" (some 9999) (some 7) AppPt.emptyStore =
      (.artistNotFound, AppPt.emptyStore) ∧
    AppPt.submitVote 0 0 "h" none none AppPt.emptyStore =
      (.invalidInput, AppPt.emptyStore) ∧
    AppJs.submitVote 0 0 "h" "c" "u" (some 1) (some (3.5 : ℚ))
      AppJs.emptyStore = (.scoreInvalid, AppJs.emptyStore) ∧
    AppJs.submitVote 0 0 "h" "c" "u" (some 1) (some (11 : ℚ))
      AppJs.emptyStore = (.scoreInvalid, AppJs.emptyStore) ∧
    AppJs.submitVote 0 0 "h" "c" "u" (some 9999) (some 7) AppJs.emptyStore =
      (.artistNotFound, AppJs.emptyStore) := by
  obtain ⟨h1, h2, h3, h4, h5, h6, h7, h8⟩ := C6_amended_validation_order
  refine ⟨h4 0 0 "h" (some 1) AppPt.emptyStore,
    h5 0 0 "h" 1 AppPt.emptyStore (by norm_num),
    (h3 0 0 "h" 9999 7 AppPt.emptyStore (by norm_num) (by norm_num)
      (by norm_num) rfl).1,
    (h1 0 0 "h" none none AppPt.emptyStore rfl).1,
    (h7 0 0 "h" "c" "u" 1 (3.5 : ℚ) AppJs.emptyStore (by norm_num)).1,
    (h7 0 0 "h" "c" "u" 1 11 AppJs.emptyStore (by norm_num)).1,
    (h8 0 0 "h" "c" "u" 9999 7 AppJs.emptyStore (by norm_num) rfl).1⟩

/-- C7 fails on src/app.js: `POST /api/artists` performs no staff check, so
a caller with no staff cookie gets 200 and the artist is created — not the
claimed 403 with an unchanged registry. -/
theorem C7_counterexample :
    (AppJs.apiCreateArtist none "x" "a1b2c3d4" 0 AppJs.emptyStore).1 =
      .ok { id := 1, name := "x", slug := "x-a1b2c3d4", created_at := 0 } ∧
    AppJs.createStatus
      (AppJs.apiCreateArtist none "x" "a1b2c3d4" 0 AppJs.emptyStore).1 = 200 ∧
    (AppJs.apiCreateArtist none "x" "a1b2c3d4" 0 AppJs.emptyStore).2.artists ≠
      AppJs.emptyStore.artists := by
  refine ⟨?_, ?_, ?_⟩ <;> decide

/-- C7 (amended): in part_000/part_001 a caller without the staff cookie
gets 403 `Forbidden` from `POST /api/artists` and the registry is
unchanged; in src/app.js that route consults no cookie at all — its result
is independent of the caller's staff capability, and a staff-less caller
with a valid name gets 200 and a created artist. -/
theorem C7_amended_staff_guard :
    (∀ (cookie : Option String) (name suffix : String) (s : AppPt.Store),
      AppPt.isStaff cookie = false →
      AppPt.apiCreateArtist cookie name suffix s = (.forbidden, s) ∧
        AppPt.createStatus .forbidden = 403) ∧
    (∀ (c1 c2 : Option String) (name suffix : String) (now : Nat)
      (s : AppJs.Store),
      AppJs.apiCreateArtist c1 name suffix now s =
        AppJs.apiCreateArtist c2 name suffix now s) ∧
    (AppJs.apiCreateArtist none "x" "a1b2c3d4" 0 AppJs.emptyStore).2.artists.length
      = 1 := by
  refine ⟨?_, ?_, ?_⟩
  · intro cookie name suffix s h
    exact ⟨by simp [AppPt.apiCreateArtist, h], rfl⟩
  · intro c1 c2 name suffix now s
    rfl
  · decide

/-- Witness for C7 (amended): a staff-less creation attempt is refused by
part_000/part_001. -/
theorem C7_amended_staff_guard_witness :
    AppPt.apiCreateArtist none "x" "a1b2c3d4" AppPt.emptyStore =
      (.forbidden, AppPt.emptyStore) :=
  (C7_amended_staff_guard.1 none "x" "a1b2c3d4" AppPt.emptyStore (by decide)).1

/-- Characters produced by the slug regular expression: kept characters
satisfy `isSlugChar`, everything else became a dash. -/
theorem dashRunsAux_chars (l : List Char) :
    ∀ (b : Bool), ∀ c ∈ dashRunsAux b l, isSlugChar c = true ∨ c = '-' := by
  induction l with
  | nil =>
      intro b c hc
      simp [dashRunsAux] at hc
  | cons x xs ih =>
      intro b c hc
      by_cases hx : isSlugChar x = true
      · simp only [dashRunsAux, if_pos hx, List.mem_cons] at hc
        rcases hc with h | h
        · exact Or.inl (h ▸ hx)
        · exact ih false c h
      · cases b
        · simp only [dashRunsAux, if_neg hx, Bool.false_eq_true, if_false,
            List.mem_cons] at hc
          rcases hc with h | h
          · exact Or.inr h
          · exact ih true c h
        · simp only [dashRunsAux, if_neg hx, if_pos rfl] at hc
          exact ih true c hc

/-- The dash-collapsing replace introduces no character beyond its input
and dashes. -/
theorem collapseAux_chars (l : List Char) :
    ∀ (b : Bool), ∀ c ∈ collapseAux b l, c ∈ l ∨ c = '-' := by
  induction l with
  | nil =>
      intro b c hc
      simp [collapseAux] at hc
  | cons x xs ih =>
      intro b c hc
      by_cases hx : x = '-'
      · subst hx
        cases b
        · simp [collapseAux] at hc
          rcases hc with h | h
          · exact Or.inr h
          · rcases ih true c h with h2 | h2
            · exact Or.inl (List.mem_cons_of_mem _ h2)
            · exact Or.inr h2
        · simp [collapseAux] at hc
          rcases ih true c hc with h2 | h2
          · exact Or.inl (List.mem_cons_of_mem _ h2)
          · exact Or.inr h2
      · simp only [collapseAux, if_neg hx, List.mem_cons] at hc
        rcases hc with h | h
        · exact Or.inl (List.mem_cons.mpr (Or.inl h))
        · rcases ih false c h with h2 | h2
          · exact Or.inl (List.mem_cons_of_mem _ h2)
          · exact Or.inr h2

/-- Every character of a generated slug is a lowercase-alphanumeric slug
character or a dash, provided the random suffix draws from the `nanoid`
alphabet `0-9a-z`. -/
theorem makeSlug_chars (name suffix : String)
    (hs : ∀ c ∈ suffix.data, isSlugChar c = true) :
    ∀ c ∈ (makeSlug name suffix).data, isSlugChar c = true ∨ c = '-' := by
  intro c hc
  simp only [makeSlug, collapseDashes, slugify, dashNonSlugRuns] at hc
  rcases collapseAux_chars _ false c hc with h | h
  · rcases List.mem_append.mp h with h1 | h2
    · exact dashRunsAux_chars _ false c h1
    · rcases List.mem_cons.mp h2 with h3 | h4
      · exact Or.inr h3
      · exact Or.inl (hs c h4)
  · exact Or.inr h

/-- Store whose single artist already carries the slug an `"abc12345"`
suffix would regenerate for the name `"Ana"`. -/
def slugStore : AppPt.Store :=
  { artists := [{ id := 1, name := "Ana", slug := "ana-abc12345" }],
    votes := [], nextArtistId := 2, nextVoteId := 1 }

/-- C8 fails on the retry clause: when the generated slug collides with an
existing one at insert time, the request fails with 400 `'Não foi possível
criar artista'` and the registry is unchanged — no fresh suffix is drawn,
although a different suffix would have succeeded. -/
theorem C8_counterexample :
    AppPt.apiCreateArtist (some "ok") "Ana" "abc12345" slugStore =
      (.couldNotCreate, slugStore) ∧
    AppPt.createStatus .couldNotCreate = 400 ∧
    (AppPt.apiCreateArtist (some "ok") "Ana" "zzz99999" slugStore).1 =
      .ok { id := 2, name := "Ana", slug := "ana-zzz99999" } := by
  refine ⟨?_, rfl, ?_⟩ <;> decide

/-- C8 (amended): creation with a name empty after trimming fails 400
`InvalidInput`; with a non-empty name it builds one slug — the normalized
lowercase name, a dash and the single random suffix, URL-safe when the
suffix draws from the nanoid alphabet — and attempts one insert: a fresh
slug yields 200 and appends the artist, a colliding slug fails the request
with 400 (`couldNotCreate`) and an unchanged registry, with no retry; the
src/app.js route fails the same way on collision. -/
theorem C8_amended_slug_creation :
    (∀ (cookie : Option String) (name suffix : String) (s : AppPt.Store),
      AppPt.isStaff cookie = true → trimStr name = "" →
      AppPt.apiCreateArtist cookie name suffix s = (.nameRequired, s) ∧
        AppPt.createStatus .nameRequired = 400) ∧
    (∀ (cookie : Option String) (name suffix : String) (s : AppPt.Store),
      AppPt.isStaff cookie = true → trimStr name ≠ "" →
      AppPt.slugTaken s (makeSlug (trimStr name) suffix) = false →
      ∃ a s', AppPt.apiCreateArtist cookie name suffix s = (.ok a, s') ∧
        a.slug = makeSlug (trimStr name) suffix ∧
        s'.artists = s.artists ++ [a]) ∧
    (∀ (name suffix : String), (∀ c ∈ suffix.data, isSlugChar c = true) →
      ∀ c ∈ (makeSlug name suffix).data, isSlugChar c = true ∨ c = '-') ∧
    (∀ (cookie : Option String) (name suffix : String) (s : AppPt.Store),
      AppPt.isStaff cookie = true → trimStr name ≠ "" →
      AppPt.slugTaken s (makeSlug (trimStr name) suffix) = true →
      AppPt.apiCreateArtist cookie name suffix s = (.couldNotCreate, s) ∧
        AppPt.createStatus .couldNotCreate = 400) ∧
    (∀ (name suffix : String) (now : Nat) (s : AppJs.Store),
      trimStr name ≠ "" →
      AppJs.slugTaken s (makeSlug (trimStr name) suffix) = true →
      AppJs.apiCreateArtist none name suffix now s = (.couldNotCreate, s)) := by
  refine ⟨?_, ?_, ?_, ?_, ?_⟩
  · intro cookie name suffix s hst hname
    exact ⟨by simp [AppPt.apiCreateArtist, hst, hname], rfl⟩
  · intro cookie name suffix s hst hname htaken
    refine ⟨⟨s.nextArtistId, trimStr name, makeSlug (trimStr name) suffix⟩,
      ⟨s.artists ++ [⟨s.nextArtistId, trimStr name,
          makeSlug (trimStr name) suffix⟩],
        s.votes, s.nextArtistId + 1, s.nextVoteId⟩, ?_, rfl, rfl⟩
    simp only [AppPt.apiCreateArtist, AppPt.insertArtist, hst, Bool.not_true,
      Bool.false_eq_true, if_false, if_neg hname, htaken]
  · intro name suffix hs
    exact makeSlug_chars name suffix hs
  · intro cookie name suffix s hst hname htaken
    refine ⟨?_, rfl⟩
    simp only [AppPt.apiCreateArtist, AppPt.insertArtist, hst, Bool.not_true,
      Bool.false_eq_true, if_false, if_neg hname, htaken, if_true]
  · intro name suffix now s hname htaken
    simp only [AppJs.apiCreateArtist, AppJs.insertArtist, if_neg hname, htaken,
      if_true]

/-- Witness for C8 (amended): an all-whitespace name is refused; a collision
fails the request with the registry unchanged. -/
theorem C8_amended_slug_creation_witness :
    AppPt.apiCreateArtist (some "ok") "   " "a1b2c3d4" AppPt.emptyStore =
      (.nameRequired, AppPt.emptyStore) ∧
    AppPt.apiCreateArtist (some "ok") "Ana" "abc12345" slugStore =
      (.couldNotCreate, slugStore) := by
  obtain ⟨h1, h2, h3, h4, h5⟩ := C8_amended_slug_creation
  exact ⟨(h1 _ "   " "a1b2c3d4" _ (by decide) (by decide)).1,
    (h4 _ "Ana" "abc12345" _ (by decide) (by decide) (by decide)).1⟩

/-- C9: both resolvers prefer the first (trimmed, non-empty) entry of the
forwarded-origin header, fall back to the transport-layer address (via
`req.ip` in part_000/part_001), then to the sentinel `"0.0.0.0"`; the
identity hash is a deterministic function of the resolved origin and the
salt; and a request whose origin fell back to the sentinel is still
processed normally — here, accepted — rather than rejected. -/
theorem C9_identity_resolution :
    (∀ (xs : String) (reqIp remote : Option String),
      trimStr (firstComma xs) ≠ "" →
      AppPt.clientIp (some xs) reqIp remote = trimStr (firstComma xs)) ∧
    (∀ (ip : String) (remote : Option String), ip ≠ "" →
      AppPt.clientIp none (some ip) remote = ip) ∧
    AppPt.clientIp none none none = "0.0.0.0" ∧
    (∀ (f : String → String) (salt : String)
      (x1 i1 r1 x2 i2 r2 : Option String),
      AppPt.clientIp x1 i1 r1 = AppPt.clientIp x2 i2 r2 →
      AppPt.ipHash f salt (AppPt.clientIp x1 i1 r1) =
        AppPt.ipHash f salt (AppPt.clientIp x2 i2 r2)) ∧
    (∀ (f : String → String) (salt : String),
      (AppPt.submitVote 0 0
          (AppPt.ipHash f salt (AppPt.clientIp none none none))
          (some 1) (some 7) winStore0).1 = .accepted) ∧
    (∀ (xs : String) (remote : Option String),
      trimStr (firstComma xs) ≠ "" →
      AppJs.clientIp (some xs) remote = trimStr (firstComma xs)) ∧
    (∀ (r : String), r ≠ "" → AppJs.clientIp none (some r) = r) ∧
    AppJs.clientIp none none = "0.0.0.0" ∧
    (∀ (hm : String → String → String) (salt : String)
      (x1 r1 x2 r2 : Option String),
      AppJs.clientIp x1 r1 = AppJs.clientIp x2 r2 →
      AppJs.ipHash hm salt (AppJs.clientIp x1 r1) =
        AppJs.ipHash hm salt (AppJs.clientIp x2 r2)) := by
  refine ⟨?_, ?_, by decide, ?_, ?_, ?_, ?_, by decide, ?_⟩
  · intro xs reqIp remote h
    simp [AppPt.clientIp, jsOr, h]
  · intro ip remote h
    simp [AppPt.clientIp, jsOr, h]
  · intro f salt x1 i1 r1 x2 i2 r2 h
    rw [h]
  · intro f salt
    norm_num [AppPt.submitVote, isIntNum, AppPt.getArtistById,
      AppPt.persistVote, AppPt.insertVote, AppPt.votePairExists,
      winStore0, winAna]
  · intro xs remote h
    by_cases hxs : xs = ""
    · subst hxs
      exact absurd rfl h
    · simp [AppJs.clientIp, jsOr, hxs, h]
  · intro r h
    simp [AppJs.clientIp, jsOr, trimStr, firstComma, h]
  · intro hm salt x1 r1 x2 r2 h
    rw [h]

/-- Witness for C9 at concrete headers: the forwarded entry wins and is
trimmed, and the fallbacks engage when it is absent. -/
theorem C9_identity_resolution_witness :
    AppPt.clientIp (some "1.2.3.4, 5.6.7.8") (some "9.9.9.9") none =
      "1.2.3.4" ∧
    AppPt.clientIp none (some "9.9.9.9") none = "9.9.9.9" ∧
    AppJs.clientIp (some " 1.2.3.4 ,10.0.0.1") (some "7.7.7.7") =
      "1.2.3.4" ∧
    AppJs.clientIp none (some "7.7.7.7") = "7.7.7.7" := by
  obtain ⟨h1, h2, h3, h4, h5, h6, h7, h8, h9⟩ := C9_identity_resolution
  refine ⟨?_, h2 "9.9.9.9" none (by decide), ?_, h7 "7.7.7.7" (by decide)⟩
  · rw [h1 "1.2.3.4, 5.6.7.8" (some "9.9.9.9") none (by decide)]
    decide
  · rw [h6 " 1.2.3.4 ,10.0.0.1" (some "7.7.7.7") (by decide)]
    decide

/-- An accepted persist in src/app.js implies the cookie count was zero and
no `(artist_id, ip_hash)` row existed. -/
theorem AppJs.persist_accepted (s : AppJs.Store) (aid sc : Int)
    (hash ua guard : String) (now : Nat) :
    (AppJs.persistVote s aid sc hash ua guard now).1 = .accepted →
    AppJs.countVotesByCookie s aid guard = 0 ∧
      AppJs.votePairExists s.votes aid hash = false := by
  unfold AppJs.persistVote AppJs.insertVote
  split
  · intro h
    exact absurd h (by simp)
  next hc =>
    split
    next heq =>
      intro h
      exact absurd h (by simp)
    next s' heq =>
      intro _
      refine ⟨Nat.eq_zero_of_not_pos hc, ?_⟩
      split at heq
      · exact absurd heq (by simp)
      · split at heq
        next hp => exact absurd heq (by simp)
        next hp => simpa using hp

/-- C10: in src/app.js, once validation, the artist lookup and the IP-hash
duplicate pre-check have passed, any existing vote for the artist carrying
the caller's `_voter` cookie token makes the route answer 409 (cookie soft
guard); and a submission is accepted only when the store holds no prior
vote for the `(artist_id, ip_hash)` pair and none for the `(artist_id,
cookie_guard)` pair. -/
theorem C10_cookie_soft_guard :
    (∀ (W now : Nat) (hash guard ua : String) (aq sq : ℚ) (s : AppJs.Store)
      (artist : AppJs.Artist),
      ¬(sq < 0 ∨ 10 < sq ∨ ¬sq.den = 1) →
      AppJs.getArtistByIdNum s aq = some artist →
      (0 < W → AppJs.recentVoteExists s artist.id hash W now = false) →
      (W = 0 → AppJs.getVoteByArtistAndIp s artist.id hash = none) →
      0 < AppJs.countVotesByCookie s artist.id guard →
      AppJs.submitVote W now hash guard ua (some aq) (some sq) s =
        (.alreadyCookie, s) ∧ AppJs.status .alreadyCookie = 409) ∧
    (∀ (W now : Nat) (hash guard ua : String) (aq sq : ℚ) (s : AppJs.Store)
      (artist : AppJs.Artist),
      AppJs.getArtistByIdNum s aq = some artist →
      (AppJs.submitVote W now hash guard ua (some aq) (some sq) s).1 =
        .accepted →
      (∀ v ∈ s.votes, ¬(v.artist_id = artist.id ∧ v.ip_hash = hash)) ∧
      (∀ v ∈ s.votes, ¬(v.artist_id = artist.id ∧ v.cookie_guard = guard))) := by
  constructor
  · intro W now hash guard ua aq sq s artist hr hart hrec hdup hck
    refine ⟨?_, rfl⟩
    simp only [AppJs.submitVote, if_neg hr, hart]
    have hpersist :
        AppJs.persistVote s artist.id sq.num hash ua guard now =
          (.alreadyCookie, s) := by
      simp [AppJs.persistVote, hck]
    by_cases hW : 0 < W
    · simp only [if_pos hW, hrec hW, Bool.false_eq_true, if_false]
      exact hpersist
    · simp only [if_neg hW, hdup (Nat.eq_zero_of_not_pos hW)]
      exact hpersist
  · intro W now hash guard ua aq sq s artist hart hacc
    simp only [AppJs.submitVote, hart] at hacc
    by_cases hr : sq < 0 ∨ 10 < sq ∨ ¬sq.den = 1
    · rw [if_pos hr] at hacc
      exact absurd hacc (by simp)
    · rw [if_neg hr] at hacc
      have hpersist :
          (AppJs.persistVote s artist.id sq.num hash ua guard now).1 =
            .accepted → _ :=
        AppJs.persist_accepted s artist.id sq.num hash ua guard now
      have hmain : AppJs.countVotesByCookie s artist.id guard = 0 ∧
          AppJs.votePairExists s.votes artist.id hash = false := by
        by_cases hW : 0 < W
        · rw [if_pos hW] at hacc
          by_cases hrec : AppJs.recentVoteExists s artist.id hash W now = true
          · rw [if_pos hrec] at hacc
            exact absurd hacc (by simp)
          · rw [if_neg hrec] at hacc
            exact hpersist hacc
        · rw [if_neg hW] at hacc
          cases hdup : AppJs.getVoteByArtistAndIp s artist.id hash with
          | some v =>
              rw [hdup] at hacc
              exact absurd hacc (by simp)
          | none =>
              rw [hdup] at hacc
              exact hpersist hacc
      obtain ⟨hcz, hpz⟩ := hmain
      constructor
      · intro v hv hcon
        have := List.any_eq_false.mp hpz v hv
        simp [hcon.1, hcon.2] at this
      · intro v hv hcon
        have hnil : s.votes.filter
            (fun v => v.artist_id == artist.id && v.cookie_guard == guard) = [] :=
          List.length_eq_zero.mp hcz
        have := List.filter_eq_nil_iff.mp hnil v hv
        simp [hcon.1, hcon.2] at this

/-- Store for the C10 witness: the caller's cookie token already voted for
the artist, from a different network origin. -/
def cookieStore : AppJs.Store :=
  { artists := [raceArtist],
    votes := [{ id := 1, artist_id := 1, score := 7, ip_hash := "h1",
                user_agent := "u", cookie_guard := "c1", created_at := 0 }],
    nextArtistId := 2, nextVoteId := 2 }

/-- Witness for C10: the same cookie from a fresh IP hash is rejected 409 by
the soft guard even though the IP-hash duplicate check passed. -/
theorem C10_cookie_soft_guard_witness :
    AppJs.submitVote 0 0 "h2" "c1" "u" (some 1) (some 5) cookieStore =
      (.alreadyCookie, cookieStore) := by
  refine (C10_cookie_soft_guard.1 0 0 "h2" "c1" "u" 1 5 cookieStore raceArtist
    (by norm_num) ?_ (by omega) ?_ ?_).1
  · norm_num [AppJs.getArtistByIdNum, cookieStore, raceArtist]
  · intro _
    decide
  · decide

end VotingApp
